import Mathlib

/-!
# Verification of the oauth-authcode server (`src/server/handlers.go`)

A shallow embedding of the OAuth2 authorization-code sample server.
The repository file under scrutiny is `src/server/handlers.go`; its helpers
`parseToken`, `hasScope` and the `authConfig` record live in a sibling file
of the same Go package that is not part of the sources at hand, so they are
modelled from the design document (sections 3, 4.1 and 4.2).

Conventions of the embedding:
* Go interface values stored in the session become the inductive `SessVal`;
  the absent key is `Option.none` (Go's nil interface returned by
  `session.Get`).
* A Go single-value type assertion that can panic is modelled as an
  `Except GoPanic` result, so a handler either panics or produces a response.
* The two outbound network calls of the callback handler (token exchange and
  profile fetch), the body read and the JSON decode are oracles collected in
  a `Provider` record, and the handler returns the trace of observable
  events (`Ev`) next to its HTTP response.
-/

namespace OAuthAuthcode

/-- Static configuration of the app (Go struct `authConfig`): identity-provider
domain, client credentials and callback URL.  Immutable after load. -/
structure authConfig where
  Domain : String
  ClientID : String
  ClientSecret : String
  CallbackURL : String
deriving Repr, DecidableEq

/-- The endpoint pair of Go's `oauth2.Endpoint`. -/
structure oauth2Endpoint where
  AuthURL : String
  TokenURL : String
deriving Repr, DecidableEq

/-- Go's `oauth2.Config` as instantiated by the callback handler. -/
structure oauth2Config where
  ClientID : String
  ClientSecret : String
  RedirectURL : String
  Scopes : List String
  Endpoint : oauth2Endpoint
deriving Repr, DecidableEq

/-- The decoded claim structure: a list of case-sensitive scope strings
(spec section 3, `ClaimSet`). -/
structure ClaimSet where
  scope : List String
deriving Repr, DecidableEq

/-- The error produced by the Token Claims Parser on malformed input
(spec section 7, `ParseError`). -/
inductive ParseError where
  | malformed
deriving Repr, DecidableEq

/-- Splits a character list into its maximal space-free non-empty chunks;
`acc` holds the characters of the chunk currently being read, reversed. -/
def splitScopes : List Char → List Char → List String
  | [], acc => if acc.isEmpty then [] else [String.mk acc.reverse]
  | c :: cs, acc =>
    if c = ' ' then
      if acc.isEmpty then splitScopes cs []
      else String.mk acc.reverse :: splitScopes cs []
    else splitScopes cs (c :: acc)

/-- Modelled from the spec: the Token Claims Parser (spec section 4.1,
`parse(tokenString) -> (ClaimSet, error)`), whose Go source file is not among
the sources at hand (`handlers.go` only calls it).  The spec fixes the
contract: a pure function that decodes a structured bearer-token string into
a `ClaimSet` of scope strings, and on malformed input fails with a
`ParseError` alongside an empty `ClaimSet` (never a crash).  The spec leaves
the wire format open, so the model fixes one: a well-formed token is the tag
`v1.` followed by the space-separated scope list; every other string, the
empty string included, is malformed. -/
def parseToken (tokenString : String) : ClaimSet × Option ParseError :=
  match tokenString.data with
  | 'v' :: '1' :: '.' :: payload => (⟨splitScopes payload []⟩, none)
  | _ => (⟨[]⟩, some ParseError.malformed)

/-- Modelled from the spec: the Scope Authorization Gate (spec section 4.2,
`hasScope(claims, requiredScopes...) -> bool`), whose Go source file is not
among the sources at hand.  The spec fixes the contract: a pure, total
function returning true iff the ClaimSet's scope set intersects the
caller-supplied list of acceptable scopes (logical OR over the list,
case-sensitive exact matches). -/
def hasScope (claims : ClaimSet) (requiredScopes : List String) : Bool :=
  requiredScopes.any (fun s => claims.scope.contains s)

/-- A Go `interface{}` value as stored in the beego session. -/
inductive SessVal where
  | nil
  | str (s : String)
  | json (fields : List (String × String))
deriving Repr, DecidableEq

/-- The server-side session as the handlers observe it: a partial map from
string keys to stored values; `session.Get` on an absent key yields Go's nil
interface, modelled as `none`. -/
abbrev Session := String → Option SessVal

/-- A Go runtime panic reachable from the handlers. -/
inductive GoPanic where
  | interfaceConversion
deriving Repr, DecidableEq

/-- Go's single-value type assertion `x.(string)` applied to the result of
`session.Get`: it yields the string when the stored value has dynamic type
string, and panics (`interface conversion`) when the value is the nil
interface (absent key) or of another dynamic type. -/
def typeAssertString : Option SessVal → Except GoPanic String
  | some (SessVal.str s) => Except.ok s
  | _ => Except.error GoPanic.interfaceConversion

/-- An HTTP response of a protected-page handler: a status code and a body. -/
structure PageResponse where
  status : Nat
  body : String
deriving Repr, DecidableEq

/-- The HTML body written by `accessHandler` on success
(`handlers.go` lines 54–65). -/
def accessPageHTML : String :=
  "\n<html>\n  <head>\n    <title>Access Page</title>\n  </head>\n  <body>\n    <h2>You have successfully reached the Access Page</h2>\n    <p>This page requires either the <code>test.access</code> or <code>test.admin</code> scope.</p>\n    <hr/>\n    <p>Visit the <a href=\"/protected/admin\">Admin Page</a>.</p>\n  </body>\n</html>"

/-- The HTML body written by `adminHandler` on success
(`handlers.go` lines 89–100). -/
def adminPageHTML : String :=
  "\n<html>\n  <head>\n    <title>Admin Page</title>\n  </head>\n  <body>\n    <h2>You have successfully reached the Admin Page</h2>\n    <p>This page requires the <code>test.admin</code> scope.</p>\n    <hr/>\n    <p>Visit the <a href=\"/protected/access\">Access Page</a>.</p>\n  </body>\n</html>"

/-- `GET /protected/access` (`handlers.go` lines 38–71): reads
`access_token` from the session, asserts it to a string (a panic point),
parses it — a parse error is only logged, the returned claim set is used
regardless — and serves the page iff `hasScope(token, "test.access",
"test.admin")`; otherwise it writes `YOU ARE NOT AUTHORIZED` with the
implicit 200 status. -/
def accessHandler (session : Session) : Except GoPanic PageResponse :=
  match typeAssertString (session "access_token") with
  | Except.error p => Except.error p
  | Except.ok s =>
    let token := (parseToken s).1
    if hasScope token ["test.access", "test.admin"] then
      Except.ok ⟨200, accessPageHTML⟩
    else
      Except.ok ⟨200, "YOU ARE NOT AUTHORIZED"⟩

/-- `GET /protected/admin` (`handlers.go` lines 73–106): same shape as
`accessHandler`, gated on `hasScope(token, "test.admin")`. -/
def adminHandler (session : Session) : Except GoPanic PageResponse :=
  match typeAssertString (session "access_token") with
  | Except.error p => Except.error p
  | Except.ok s =>
    let token := (parseToken s).1
    if hasScope token ["test.admin"] then
      Except.ok ⟨200, adminPageHTML⟩
    else
      Except.ok ⟨200, "YOU ARE NOT AUTHORIZED"⟩

/-- The oauth2 token obtained from the exchange: its access token and the
value of `token.Extra("id_token")` (an interface value, possibly nil). -/
structure oauth2Token where
  AccessToken : String
  extraIdToken : SessVal
deriving Repr, DecidableEq

/-- Oracles for the callback handler's external interactions: the token
exchange (`conf.Exchange`), the userinfo GET issued with the obtained access
token as bearer (`conf.Client(ctx, token).Get`), the body read
(`ioutil.ReadAll`) and the JSON decode (`json.Unmarshal` into a string map).
Each may fail with an error message, exactly the failure points of
`handlers.go` lines 146–173. -/
structure Provider where
  exchange : oauth2Config → String → Except String oauth2Token
  userinfoGet : String → String → Except String String
  readAll : String → Except String String
  jsonUnmarshal : String → Except String (List (String × String))

/-- Observable events of one callback invocation: an outbound token-exchange
call, an outbound profile-fetch call, and a session write. -/
inductive Ev where
  | exchangeCall (conf : oauth2Config) (code : String)
  | profileFetchCall (url : String) (bearer : String)
  | sessionSet (key : String) (value : SessVal)
deriving Repr, DecidableEq

/-- The HTTP response of the callback handler: either `http.Error` (whose
body is the message plus a trailing newline) with a status, or a redirect. -/
inductive HttpResponse where
  | httpError (body : String) (status : Nat)
  | redirect (location : String) (status : Nat)
deriving Repr, DecidableEq

/-- Whether a callback response is an `http.Error` (as opposed to the
success redirect). -/
def HttpResponse.isHttpError : HttpResponse → Bool
  | HttpResponse.httpError _ _ => true
  | HttpResponse.redirect _ _ => false

/-- The `oauth2.Config` the callback handler builds (`handlers.go` lines
119–128): client credentials and callback URL from the static config, the
fixed requested-scope list, and endpoints derived from the domain. -/
def callbackConf (config : authConfig) : oauth2Config :=
  ⟨config.ClientID, config.ClientSecret, config.CallbackURL,
   ["openid", "test.access", "test.admin"],
   ⟨config.Domain ++ "/oauth/authorize", config.Domain ++ "/oauth/token"⟩⟩

/-- `GET /callback` (`handlers.go` lines 108–190).  `query` is
`r.URL.Query().Get`, which returns the empty string for an absent parameter.
The result is the trace of observable events next to the HTTP response.
Branches, in source order: non-empty `error` parameter → 400 with the error
text; empty `code` → 500 `Did not receive authcode from IdP`; failed
exchange, userinfo GET, body read or JSON decode → 500 with the error text;
otherwise the three session writes and a 301 redirect to
`/protected/access`. -/
def callbackHandler (config : authConfig) (p : Provider)
    (query : String → String) : List Ev × HttpResponse :=
  let conf := callbackConf config
  let e := query "error"
  if e.length > 0 then
    ([], HttpResponse.httpError (e ++ "\n") 400)
  else
    let code := query "code"
    if code.length = 0 then
      ([], HttpResponse.httpError ("Did not receive authcode from IdP" ++ "\n") 500)
    else
      match p.exchange conf code with
      | Except.error err =>
        ([Ev.exchangeCall conf code], HttpResponse.httpError (err ++ "\n") 500)
      | Except.ok token =>
        let url := config.Domain ++ "/userinfo"
        match p.userinfoGet url token.AccessToken with
        | Except.error err =>
          ([Ev.exchangeCall conf code, Ev.profileFetchCall url token.AccessToken],
           HttpResponse.httpError (err ++ "\n") 500)
        | Except.ok resp =>
          match p.readAll resp with
          | Except.error err =>
            ([Ev.exchangeCall conf code, Ev.profileFetchCall url token.AccessToken],
             HttpResponse.httpError (err ++ "\n") 500)
          | Except.ok raw =>
            match p.jsonUnmarshal raw with
            | Except.error err =>
              ([Ev.exchangeCall conf code, Ev.profileFetchCall url token.AccessToken],
               HttpResponse.httpError (err ++ "\n") 500)
            | Except.ok profile =>
              ([Ev.exchangeCall conf code, Ev.profileFetchCall url token.AccessToken,
                Ev.sessionSet "id_token" token.extraIdToken,
                Ev.sessionSet "access_token" (SessVal.str token.AccessToken),
                Ev.sessionSet "profile" (SessVal.json profile)],
               HttpResponse.redirect "/protected/access" 301)

/-! ## Concrete fixtures used to instantiate the theorems below -/

/-- A concrete static configuration. -/
def cfgW : authConfig := ⟨"https://idp.example", "cid", "secret", "https://app/callback"⟩

/-- A provider whose four interactions all succeed. -/
def provOkW : Provider :=
  ⟨fun _ _ => Except.ok ⟨"AT", SessVal.str "IDT"⟩,
   fun _ _ => Except.ok "respbody",
   fun _ => Except.ok "rawbytes",
   fun _ => Except.ok [("name", "tester")]⟩

/-- A provider whose token exchange fails. -/
def provFailW : Provider :=
  ⟨fun _ _ => Except.error "exchange failed",
   fun _ _ => Except.ok "respbody",
   fun _ => Except.ok "rawbytes",
   fun _ => Except.ok [("name", "tester")]⟩

/-- A callback query string carrying only `code=abc`. -/
def queryCodeW : String → String := fun k => if k = "code" then "abc" else ""

/-- A callback query string carrying only `error=access_denied`. -/
def queryErrW : String → String := fun k => if k = "error" then "access_denied" else ""

/-- A callback query string with no parameters at all. -/
def queryNoneW : String → String := fun _ => ""

/-- A session whose access token carries exactly the scope `test.access`. -/
def sessW : Session :=
  fun k => if k = "access_token" then some (SessVal.str "v1.test.access") else none

/-! ## Helper lemmas -/

/-- A non-empty string has positive length. -/
theorem length_pos_of_ne_empty {s : String} (h : s ≠ "") : 0 < s.length := by
  cases s with
  | mk data =>
    cases data with
    | nil => exact absurd rfl h
    | cons c cs => simp [String.length]

/-- The gate succeeds exactly when some required scope is held. -/
theorem hasScope_iff_mem (C : ClaimSet) (S : List String) :
    hasScope C S = true ↔ ∃ s, s ∈ S ∧ s ∈ C.scope := by
  simp [hasScope, List.any_eq_true]

/-- Two-scope specialisation of the gate, as used by `accessHandler`. -/
theorem hasScope_pair (c : ClaimSet) (a b : String) :
    hasScope c [a, b] = true ↔ a ∈ c.scope ∨ b ∈ c.scope := by
  simp [hasScope]

/-- One-scope specialisation of the gate, as used by `adminHandler`. -/
theorem hasScope_single (c : ClaimSet) (a : String) :
    hasScope c [a] = true ↔ a ∈ c.scope := by
  simp [hasScope]

/-! ## Claims -/

/-- Claim C1: the claim says every protected-page request whose session holds
a missing, empty, or unparsable access token completes without crashing and
is answered with the unauthorized outcome.  The code violates this for the
missing case: on a session with no `access_token` entry, `session.Get`
returns the nil interface and the single-value type assertion
`accessToken.(string)` (handlers.go lines 47 and 82) panics before the
parser ever runs, so no response is written.  This theorem evaluates both
handlers at that failing input. -/
theorem C1_missing_token_panics :
    accessHandler (fun _ => none) = Except.error GoPanic.interfaceConversion ∧
    adminHandler (fun _ => none) = Except.error GoPanic.interfaceConversion :=
  ⟨rfl, rfl⟩

/-- Claim C2: for every ClaimSet `C` and scope list `S`, `hasScope C S` is
true iff the intersection of `C`'s scopes with `S` is non-empty (logical OR
with case-sensitive exact string matching). -/
theorem C2_hasScope_iff_intersect (C : ClaimSet) (S : List String) :
    hasScope C S = true ↔ ∃ s, s ∈ S ∧ s ∈ C.scope := by
  simp [hasScope, List.any_eq_true]

/-- Claim C3: on a callback with a valid code and successful provider
interactions, the handler performs exactly one token exchange, then exactly
one profile fetch, then exactly one session write of `id_token`,
`access_token` and `profile`, and responds with a 301 redirect to
`/protected/access`.  The trace equality pins the exact events and their
order. -/
theorem C3_callback_success_sequence (config : authConfig) (p : Provider)
    (query : String → String) (tok : oauth2Token) (resp raw : String)
    (profile : List (String × String))
    (he : query "error" = "") (hc : query "code" ≠ "")
    (hex : p.exchange (callbackConf config) (query "code") = Except.ok tok)
    (hget : p.userinfoGet (config.Domain ++ "/userinfo") tok.AccessToken = Except.ok resp)
    (hread : p.readAll resp = Except.ok raw)
    (hjson : p.jsonUnmarshal raw = Except.ok profile) :
    callbackHandler config p query =
      ([Ev.exchangeCall (callbackConf config) (query "code"),
        Ev.profileFetchCall (config.Domain ++ "/userinfo") tok.AccessToken,
        Ev.sessionSet "id_token" tok.extraIdToken,
        Ev.sessionSet "access_token" (SessVal.str tok.AccessToken),
        Ev.sessionSet "profile" (SessVal.json profile)],
       HttpResponse.redirect "/protected/access" 301) := by
  have hl : 0 < (query "code").length := length_pos_of_ne_empty hc
  simp [callbackHandler, he, Nat.pos_iff_ne_zero.mp hl, hex, hget, hread, hjson]

/-- Witness for C3: a concrete successful run produces exactly the claimed
event sequence and the 301 redirect. -/
theorem C3_callback_success_sequence_witness :
    queryCodeW "error" = "" ∧ queryCodeW "code" = "abc" ∧
    callbackHandler cfgW provOkW queryCodeW =
      ([Ev.exchangeCall (callbackConf cfgW) "abc",
        Ev.profileFetchCall "https://idp.example/userinfo" "AT",
        Ev.sessionSet "id_token" (SessVal.str "IDT"),
        Ev.sessionSet "access_token" (SessVal.str "AT"),
        Ev.sessionSet "profile" (SessVal.json [("name", "tester")])],
       HttpResponse.redirect "/protected/access" 301) :=
  ⟨rfl, rfl,
   C3_callback_success_sequence cfgW provOkW queryCodeW ⟨"AT", SessVal.str "IDT"⟩
     "respbody" "rawbytes" [("name", "tester")] rfl (by decide) rfl rfl rfl rfl⟩

/-- Claim C4: whenever the callback terminates in an error response (provider
error parameter, missing code, or a failed exchange, profile fetch, body read
or profile decode), no session key is written: the event trace holds no
`sessionSet`, so a failed exchange never leaves a half-populated session. -/
theorem C4_no_session_write_on_error (config : authConfig) (p : Provider)
    (query : String → String)
    (h : (callbackHandler config p query).2.isHttpError = true) :
    ∀ k v, Ev.sessionSet k v ∉ (callbackHandler config p query).1 := by
  intro k v
  by_cases he : 0 < (query "error").length
  · simp [callbackHandler, he]
  · by_cases hcz : (query "code").length = 0
    · simp [callbackHandler, he, hcz]
    · cases hx : p.exchange (callbackConf config) (query "code") with
      | error err => simp [callbackHandler, he, hcz, hx]
      | ok tok =>
        cases hg : p.userinfoGet (config.Domain ++ "/userinfo") tok.AccessToken with
        | error err => simp [callbackHandler, he, hcz, hx, hg]
        | ok resp =>
          cases hr : p.readAll resp with
          | error err => simp [callbackHandler, he, hcz, hx, hg, hr]
          | ok raw =>
            cases hj : p.jsonUnmarshal raw with
            | error err => simp [callbackHandler, he, hcz, hx, hg, hr, hj]
            | ok profile =>
              simp [callbackHandler, he, hcz, hx, hg, hr, hj,
                HttpResponse.isHttpError] at h

/-- Witness for C4: a run whose token exchange fails ends in an error
response and its trace holds no session write. -/
theorem C4_no_session_write_on_error_witness :
    (callbackHandler cfgW provFailW queryCodeW).2.isHttpError = true ∧
    Ev.sessionSet "access_token" (SessVal.str "AT")
      ∉ (callbackHandler cfgW provFailW queryCodeW).1 :=
  ⟨rfl, C4_no_session_write_on_error cfgW provFailW queryCodeW rfl
    "access_token" (SessVal.str "AT")⟩

/-- Claim C5: a callback whose query carries a non-empty `error` parameter is
answered with status 400 and a body containing the error text (the body is
the error text plus `http.Error`'s trailing newline), and the empty event
trace shows that no token exchange, profile fetch or session write is
performed — whatever the `code` parameter holds. -/
theorem C5_provider_error_terminal (config : authConfig) (p : Provider)
    (query : String → String) (h : query "error" ≠ "") :
    callbackHandler config p query =
      ([], HttpResponse.httpError (query "error" ++ "\n") 400) ∧
    ∃ rest, query "error" ++ rest = query "error" ++ "\n" := by
  have hl : 0 < (query "error").length := length_pos_of_ne_empty h
  exact ⟨by simp [callbackHandler, hl], ⟨"\n", rfl⟩⟩

/-- Witness for C5: `error=access_denied` yields a 400 whose body contains
`access_denied`, with an empty event trace. -/
theorem C5_provider_error_terminal_witness :
    queryErrW "error" ≠ "" ∧
    (callbackHandler cfgW provOkW queryErrW =
      ([], HttpResponse.httpError ("access_denied" ++ "\n") 400) ∧
     ∃ rest, ("access_denied" : String) ++ rest = "access_denied" ++ "\n") :=
  ⟨by decide, C5_provider_error_terminal cfgW provOkW queryErrW (by decide)⟩

/-- Counterexample to C6 as stated: with no `error` and no `code`, the
response body is `Did not receive authcode from IdP` (plus `http.Error`'s
newline), which is not the claimed message `authorization code missing` in
any variant. -/
theorem C6_counterexample_message :
    callbackHandler cfgW provOkW queryNoneW =
      ([], HttpResponse.httpError ("Did not receive authcode from IdP" ++ "\n") 500) ∧
    ("Did not receive authcode from IdP" : String) ++ "\n" ≠ "authorization code missing" ∧
    ("Did not receive authcode from IdP" : String) ++ "\n" ≠ "authorization code missing" ++ "\n" ∧
    ("Did not receive authcode from IdP" : String) ≠ "authorization code missing" :=
  ⟨rfl, by decide, by decide, by decide⟩

/-- Claim C6 (amended): with no error parameter and an absent or empty code
parameter, the handler responds with status 500 and the message `Did not
receive authcode from IdP`, and the empty event trace shows no token
exchange or session write is performed. -/
theorem C6_missing_code_terminal (config : authConfig) (p : Provider)
    (query : String → String)
    (he : query "error" = "") (hc : query "code" = "") :
    callbackHandler config p query =
      ([], HttpResponse.httpError ("Did not receive authcode from IdP" ++ "\n") 500) := by
  simp [callbackHandler, he, hc]

/-- Witness for the amended C6: a callback with no parameters at all. -/
theorem C6_missing_code_terminal_witness :
    queryNoneW "error" = "" ∧ queryNoneW "code" = "" ∧
    callbackHandler cfgW provOkW queryNoneW =
      ([], HttpResponse.httpError ("Did not receive authcode from IdP" ++ "\n") 500) :=
  ⟨rfl, rfl, C6_missing_code_terminal cfgW provOkW queryNoneW rfl rfl⟩

/-- Claim C7: for a request whose session holds a string access token, the
access page is served iff the token's claims include `test.access` or
`test.admin`, the admin page iff they include `test.admin`, and a request
failing its gate receives a 200 response whose body is exactly
`YOU ARE NOT AUTHORIZED`.  (A session with no string token falls under the
panic defect recorded at C1.) -/
theorem C7_scope_gate (sess : Session) (s : String)
    (h : sess "access_token" = some (SessVal.str s)) :
    (accessHandler sess = Except.ok ⟨200, accessPageHTML⟩ ↔
       ("test.access" ∈ (parseToken s).1.scope ∨ "test.admin" ∈ (parseToken s).1.scope)) ∧
    (¬("test.access" ∈ (parseToken s).1.scope ∨ "test.admin" ∈ (parseToken s).1.scope) →
       accessHandler sess = Except.ok ⟨200, "YOU ARE NOT AUTHORIZED"⟩) ∧
    (adminHandler sess = Except.ok ⟨200, adminPageHTML⟩ ↔
       "test.admin" ∈ (parseToken s).1.scope) ∧
    ("test.admin" ∉ (parseToken s).1.scope →
       adminHandler sess = Except.ok ⟨200, "YOU ARE NOT AUTHORIZED"⟩) := by
  have hne1 : accessPageHTML ≠ "YOU ARE NOT AUTHORIZED" := by decide
  have hne2 : adminPageHTML ≠ "YOU ARE NOT AUTHORIZED" := by decide
  have e1 : accessHandler sess =
      (if hasScope (parseToken s).1 ["test.access", "test.admin"] then
        Except.ok ⟨200, accessPageHTML⟩ else Except.ok ⟨200, "YOU ARE NOT AUTHORIZED"⟩) := by
    simp [accessHandler, typeAssertString, h]
  have e2 : adminHandler sess =
      (if hasScope (parseToken s).1 ["test.admin"] then
        Except.ok ⟨200, adminPageHTML⟩ else Except.ok ⟨200, "YOU ARE NOT AUTHORIZED"⟩) := by
    simp [adminHandler, typeAssertString, h]
  rw [e1, e2, ← hasScope_pair (parseToken s).1 "test.access" "test.admin",
     ← hasScope_single (parseToken s).1 "test.admin"]
  cases hb1 : hasScope (parseToken s).1 ["test.access", "test.admin"] <;>
    cases hb2 : hasScope (parseToken s).1 ["test.admin"] <;>
      simp [hne1, hne2, Ne.symm hne1, Ne.symm hne2]

/-- Witness for C7: a session whose token carries only the scope
`test.access` reaches the access page and is denied at the admin page. -/
theorem C7_scope_gate_witness :
    sessW "access_token" = some (SessVal.str "v1.test.access") ∧
    accessHandler sessW = Except.ok ⟨200, accessPageHTML⟩ ∧
    adminHandler sessW = Except.ok ⟨200, "YOU ARE NOT AUTHORIZED"⟩ :=
  ⟨rfl,
   (C7_scope_gate sessW "v1.test.access" rfl).1.mpr (Or.inl (by decide)),
   (C7_scope_gate sessW "v1.test.access" rfl).2.2.2 (by decide)⟩

/-- Claim C8: for every list of required scopes, including the empty list,
the gate applied to a ClaimSet with zero scopes returns false. -/
theorem C8_empty_claimset_denies (S : List String) : hasScope ⟨[]⟩ S = false := by
  simp [hasScope]

/-- Claim C9: the claims parser is deterministic — two invocations on the
same token string yield identical ClaimSets and the same error outcome. -/
theorem C9_parseToken_deterministic (t₁ t₂ : String) (h : t₁ = t₂) :
    parseToken t₁ = parseToken t₂ := by
  rw [h]

/-- Witness for C9 at a concrete token string. -/
theorem C9_parseToken_deterministic_witness :
    ("v1.test.access" : String) = "v1.test.access" ∧
    parseToken "v1.test.access" = parseToken "v1.test.access" :=
  ⟨rfl, C9_parseToken_deterministic "v1.test.access" "v1.test.access" rfl⟩

/-- Claim C10: every token-exchange call the callback handler emits uses the
configuration built from the static `authConfig` alone: the fixed requested
scope list `openid, test.access, test.admin`, the endpoints derived from the
domain, and the static client credentials and callback URL — independent of
the per-request query or provider behaviour. -/
theorem C10_fixed_exchange_config (config : authConfig) (p : Provider)
    (query : String → String) (conf : oauth2Config) (code : String)
    (h : Ev.exchangeCall conf code ∈ (callbackHandler config p query).1) :
    conf.Scopes = ["openid", "test.access", "test.admin"] ∧
    conf.Endpoint.AuthURL = config.Domain ++ "/oauth/authorize" ∧
    conf.Endpoint.TokenURL = config.Domain ++ "/oauth/token" ∧
    conf.ClientID = config.ClientID ∧ conf.ClientSecret = config.ClientSecret ∧
    conf.RedirectURL = config.CallbackURL := by
  have hconf : conf = callbackConf config := by
    by_cases he : 0 < (query "error").length
    · simp [callbackHandler, he] at h
    · by_cases hcz : (query "code").length = 0
      · simp [callbackHandler, he, hcz] at h
      · cases hx : p.exchange (callbackConf config) (query "code") with
        | error err => simp [callbackHandler, he, hcz, hx] at h; exact h.1
        | ok tok =>
          cases hg : p.userinfoGet (config.Domain ++ "/userinfo") tok.AccessToken with
          | error err => simp [callbackHandler, he, hcz, hx, hg] at h; exact h.1
          | ok resp =>
            cases hr : p.readAll resp with
            | error err => simp [callbackHandler, he, hcz, hx, hg, hr] at h; exact h.1
            | ok raw =>
              cases hj : p.jsonUnmarshal raw with
              | error err => simp [callbackHandler, he, hcz, hx, hg, hr, hj] at h; exact h.1
              | ok profile => simp [callbackHandler, he, hcz, hx, hg, hr, hj] at h; exact h.1
  subst hconf
  simp [callbackConf]

/-- Witness for C10: the exchange call of a concrete successful run carries
the fixed scope list. -/
theorem C10_fixed_exchange_config_witness :
    Ev.exchangeCall (callbackConf cfgW) "abc" ∈ (callbackHandler cfgW provOkW queryCodeW).1 ∧
    (callbackConf cfgW).Scopes = ["openid", "test.access", "test.admin"] :=
  ⟨by decide,
   (C10_fixed_exchange_config cfgW provOkW queryCodeW (callbackConf cfgW) "abc"
     (by decide)).1⟩

end OAuthAuthcode
